import Mathlib

/-!
Shallow embedding of the client-side script `src/js/main.js` of the
lonah-maiko-foundation site, restricted to the parts the verified
properties need: the mobile navigation module (`navigation`), the
`utils.isMobile` / `utils.debounce` helpers, and the lazy-image loader
(`lazyLoad.loadImage`).

DOM elements are identified by natural numbers; class membership and the
two ARIA attributes the module writes are carried explicitly in a state
record. Event handlers become state transformers taking the data the
real handler reads from the event (target containment, key name,
viewport width).
-/

namespace LMF

/-- Constant `CONFIG.breakpoints.mobile` in `main.js`. -/
def mobileBreakpoint : Nat := 768

/-- Predicate `utils.isMobile()`: `window.innerWidth < CONFIG.breakpoints.mobile`. -/
def isMobile (innerWidth : Nat) : Bool := innerWidth < mobileBreakpoint

/-- Which element currently holds keyboard focus. `navLink id` is the nav
link whose element identifier is `id`; `other` is any element outside the
navigation module (e.g. wherever a pointer event landed). -/
inductive FocusTarget where
  | toggleControl : FocusTarget
  | navLink (id : Nat) : FocusTarget
  | other : FocusTarget
deriving DecidableEq, Repr

/-- The observable state the navigation module touches: the internal
flag `navigation.isOpen`, its four DOM mirrors, and the focused element.
`navActive` is membership of `CONFIG.classes.active` in the menu
container's class list, `bodyMenuOpen` is membership of
`CONFIG.classes.menuOpen` in the body's class list, `ariaExpanded` /
`ariaHidden` are the string-valued attributes written on the toggle
control and the menu container. -/
structure NavState where
  isOpen : Bool
  navActive : Bool
  bodyMenuOpen : Bool
  ariaExpanded : String
  ariaHidden : String
  focused : FocusTarget
deriving DecidableEq, Repr

/-- Operation `navigation.openMenu()` (main.js lines 181-193), without the deferred
focus transfer, which is modelled separately as `scheduleDeferredFocus`
because it runs later on the timer queue. -/
def openMenu (s : NavState) : NavState :=
  { s with
    isOpen := true
    navActive := true
    bodyMenuOpen := true
    ariaExpanded := "true"
    ariaHidden := "false" }

/-- Operation `navigation.closeMenu()` (main.js lines 195-201). -/
def closeMenu (s : NavState) : NavState :=
  { s with
    isOpen := false
    navActive := false
    bodyMenuOpen := false
    ariaExpanded := "false"
    ariaHidden := "true" }

/-- Operation `navigation.toggleMenu()`: `this.isOpen ? this.closeMenu() : this.openMenu()`. -/
def toggleMenu (s : NavState) : NavState :=
  if s.isOpen then closeMenu s else openMenu s

/-- One call of the navigation state-transition interface. -/
inductive NavOp where
  | openOp : NavOp
  | closeOp : NavOp
  | toggleOp : NavOp
deriving DecidableEq, Repr

/-- Dispatch one interface call on the state. -/
def applyNavOp (s : NavState) (op : NavOp) : NavState :=
  match op with
  | NavOp.openOp => openMenu s
  | NavOp.closeOp => closeMenu s
  | NavOp.toggleOp => toggleMenu s

/-- The spec's §3 invariant: `isOpen` is true iff the container carries
the active class iff the body carries the menu-open class iff
`aria-expanded` is `"true"` iff `aria-hidden` is `"false"`. -/
def mirrorsConsistent (s : NavState) : Prop :=
  (s.isOpen = true ↔ s.navActive = true) ∧
  (s.isOpen = true ↔ s.bodyMenuOpen = true) ∧
  (s.isOpen = true ↔ s.ariaExpanded = "true") ∧
  (s.isOpen = true ↔ s.ariaHidden = "false")

instance (s : NavState) : Decidable (mirrorsConsistent s) := by
  unfold mirrorsConsistent
  infer_instance

lemma mirrorsConsistent_openMenu (s : NavState) :
    mirrorsConsistent (openMenu s) := by
  simp [mirrorsConsistent, openMenu]

lemma mirrorsConsistent_closeMenu (s : NavState) :
    mirrorsConsistent (closeMenu s) := by
  simp [mirrorsConsistent, closeMenu]

lemma mirrorsConsistent_applyNavOp (s : NavState) (op : NavOp) :
    mirrorsConsistent (applyNavOp s op) := by
  cases op with
  | openOp => exact mirrorsConsistent_openMenu s
  | closeOp => exact mirrorsConsistent_closeMenu s
  | toggleOp =>
      unfold applyNavOp toggleMenu
      by_cases h : s.isOpen <;> simp [h, mirrorsConsistent_openMenu, mirrorsConsistent_closeMenu]

lemma mirrorsConsistent_foldl (s : NavState) (ops : List NavOp)
    (hs : mirrorsConsistent s) :
    mirrorsConsistent (ops.foldl applyNavOp s) := by
  induction ops generalizing s with
  | nil => exact hs
  | cons op rest ih =>
      simpa using ih (applyNavOp s op) (mirrorsConsistent_applyNavOp s op)

/-- C1: after every call in any sequence of open()/close()/toggle()
calls run after controller setup, the internal flag `isOpen` and its four
DOM mirrors (active class on the container, menu-open class on the body,
`aria-expanded` on the toggle, `aria-hidden` on the container) are
pairwise consistent: `isOpen` is true iff the container class is present
iff the body class is present iff `aria-expanded` is `"true"` iff
`aria-hidden` is `"false"`. Stated for an arbitrary starting state, so it
covers every prefix of the sequence ending in a call. -/
theorem menu_mirrors_consistent_after_every_call
    (s : NavState) (ops : List NavOp) (h : ops ≠ []) :
    mirrorsConsistent (ops.foldl applyNavOp s) := by
  cases ops with
  | nil => exact absurd rfl h
  | cons op rest =>
      simpa using
        mirrorsConsistent_foldl (applyNavOp s op) rest
          (mirrorsConsistent_applyNavOp s op)

/-- Closed instance of C1 at a concrete setup state (closed menu, the
attributes `setupAccessibility` writes) and the call sequence
open; toggle; toggle. -/
theorem menu_mirrors_consistent_after_every_call_witness :
    mirrorsConsistent
      (([NavOp.openOp, NavOp.toggleOp, NavOp.toggleOp]).foldl applyNavOp
        { isOpen := false, navActive := false, bodyMenuOpen := false,
          ariaExpanded := "false", ariaHidden := "true",
          focused := FocusTarget.other }) :=
  menu_mirrors_consistent_after_every_call
    { isOpen := false, navActive := false, bodyMenuOpen := false,
      ariaExpanded := "false", ariaHidden := "true",
      focused := FocusTarget.other }
    [NavOp.openOp, NavOp.toggleOp, NavOp.toggleOp] (by decide)

/-- The document-level dismissal handler bound in `bindEvents`
(main.js lines 131-137): on a pointer press (the source binds it to the
document click event) it closes the menu when the menu is open and the
event target is contained in neither the toggle control nor the menu
container. `inToggle` is `this.toggle.contains(e.target)` and `inNav` is
`this.nav.contains(e.target)`. -/
def documentClick (inToggle inNav : Bool) (s : NavState) : NavState :=
  if s.isOpen ∧ ¬inToggle ∧ ¬inNav then closeMenu s else s

/-- The per-NavLink click handler bound in `bindEvents` (main.js lines
122-128): `if (utils.isMobile()) this.closeMenu()`. -/
def navLinkClick (innerWidth : Nat) (s : NavState) : NavState :=
  if isMobile innerWidth then closeMenu s else s

/-- The document keydown handler bound in `bindEvents` (main.js lines
140-145): on Escape with the menu open, `closeMenu()` then
`this.toggle.focus()`. -/
def documentKeydown (key : String) (s : NavState) : NavState :=
  if key = "Escape" ∧ s.isOpen then
    { closeMenu s with focused := FocusTarget.toggleControl }
  else s

/-- C2: with the menu open, the document-level press handler closes the
menu exactly when the target lies outside both the toggle control and
the menu container; in particular a target inside the menu container
leaves the menu open. -/
theorem outside_press_closes_iff_target_outside
    (s : NavState) (inToggle inNav : Bool) (h : s.isOpen = true) :
    ((documentClick inToggle inNav s).isOpen = false ↔
      (inToggle = false ∧ inNav = false)) ∧
    (inNav = true → (documentClick inToggle inNav s).isOpen = true) := by
  cases inToggle <;> cases inNav <;>
    simp [documentClick, closeMenu, h]

/-- Closed instance of C2: menu open, target inside the container. -/
theorem outside_press_closes_iff_target_outside_witness :
    ((documentClick false true
        { isOpen := true, navActive := true, bodyMenuOpen := true,
          ariaExpanded := "true", ariaHidden := "false",
          focused := FocusTarget.other }).isOpen = false ↔
      ((false : Bool) = false ∧ (true : Bool) = false)) ∧
    ((true : Bool) = true →
      (documentClick false true
        { isOpen := true, navActive := true, bodyMenuOpen := true,
          ariaExpanded := "true", ariaHidden := "false",
          focused := FocusTarget.other }).isOpen = true) :=
  outside_press_closes_iff_target_outside
    { isOpen := true, navActive := true, bodyMenuOpen := true,
      ariaExpanded := "true", ariaHidden := "false",
      focused := FocusTarget.other } false true rfl

/-- C3: with the menu open, activating a NavLink closes the menu when
the viewport width is below the mobile breakpoint (768), and leaves the
whole state unchanged when the width is at or above the breakpoint. -/
theorem navlink_click_closes_only_on_mobile
    (s : NavState) (w : Nat) (h : s.isOpen = true) :
    (w < 768 → (navLinkClick w s).isOpen = false) ∧
    (768 ≤ w → navLinkClick w s = s) := by
  constructor
  · intro hw
    unfold navLinkClick
    rw [if_pos (by simp [isMobile, mobileBreakpoint, hw])]
    rfl
  · intro hw
    unfold navLinkClick
    rw [if_neg (by simp [isMobile, mobileBreakpoint]; omega)]

/-- Closed instance of C3 at width 375 (below the breakpoint). -/
theorem navlink_click_closes_only_on_mobile_witness :
    (375 < 768 → (navLinkClick 375
      { isOpen := true, navActive := true, bodyMenuOpen := true,
        ariaExpanded := "true", ariaHidden := "false",
        focused := FocusTarget.other }).isOpen = false) ∧
    (768 ≤ 375 → navLinkClick 375
      { isOpen := true, navActive := true, bodyMenuOpen := true,
        ariaExpanded := "true", ariaHidden := "false",
        focused := FocusTarget.other } =
      { isOpen := true, navActive := true, bodyMenuOpen := true,
        ariaExpanded := "true", ariaHidden := "false",
        focused := FocusTarget.other }) :=
  navlink_click_closes_only_on_mobile
    { isOpen := true, navActive := true, bodyMenuOpen := true,
      ariaExpanded := "true", ariaHidden := "false",
      focused := FocusTarget.other } 375 rfl

/-- C4: Escape with the menu open closes it and moves focus to the
toggle control; with the menu closed, Escape changes neither the state
nor the focus. -/
theorem escape_closes_and_focuses_toggle (s : NavState) :
    (s.isOpen = true →
      (documentKeydown "Escape" s).isOpen = false ∧
      (documentKeydown "Escape" s).focused = FocusTarget.toggleControl) ∧
    (s.isOpen = false → documentKeydown "Escape" s = s) := by
  constructor
  · intro h
    unfold documentKeydown
    rw [if_pos ⟨rfl, by simp [h]⟩]
    exact ⟨rfl, rfl⟩
  · intro h
    unfold documentKeydown
    rw [if_neg (by simp [h])]

/-- Closed instance of C4 at a concrete open state. -/
theorem escape_closes_and_focuses_toggle_witness :
    (documentKeydown "Escape"
      { isOpen := true, navActive := true, bodyMenuOpen := true,
        ariaExpanded := "true", ariaHidden := "false",
        focused := FocusTarget.navLink 0 }).isOpen = false ∧
    (documentKeydown "Escape"
      { isOpen := true, navActive := true, bodyMenuOpen := true,
        ariaExpanded := "true", ariaHidden := "false",
        focused := FocusTarget.navLink 0 }).focused =
      FocusTarget.toggleControl :=
  (escape_closes_and_focuses_toggle
    { isOpen := true, navActive := true, bodyMenuOpen := true,
      ariaExpanded := "true", ariaHidden := "false",
      focused := FocusTarget.navLink 0 }).1 rfl

/-- The two states of the spec's state machine: the canonical Open state
(all five markers on their open values) and the canonical Closed state.
These are exactly the states `openMenu` and `closeMenu` produce. -/
def mirrorsCanonical (s : NavState) : Prop :=
  (s.isOpen = true ∧ s.navActive = true ∧ s.bodyMenuOpen = true ∧
    s.ariaExpanded = "true" ∧ s.ariaHidden = "false") ∨
  (s.isOpen = false ∧ s.navActive = false ∧ s.bodyMenuOpen = false ∧
    s.ariaExpanded = "false" ∧ s.ariaHidden = "true")

instance (s : NavState) : Decidable (mirrorsCanonical s) := by
  unfold mirrorsCanonical
  infer_instance

/-- C5: from either state of the state machine (open or closed),
calling toggle() twice returns the state — `isOpen` and all four
mirrors, and even the focus, which toggle() never touches — to its
original value. -/
theorem toggle_twice_is_identity (s : NavState) (h : mirrorsCanonical s) :
    toggleMenu (toggleMenu s) = s := by
  obtain ⟨h1, h2, h3, h4, h5⟩ | ⟨h1, h2, h3, h4, h5⟩ := h <;>
    cases s <;>
    simp_all [toggleMenu, openMenu, closeMenu]

/-- Closed instance of C5 at the canonical closed state. -/
theorem toggle_twice_is_identity_witness :
    toggleMenu (toggleMenu
      { isOpen := false, navActive := false, bodyMenuOpen := false,
        ariaExpanded := "false", ariaHidden := "true",
        focused := FocusTarget.other }) =
      { isOpen := false, navActive := false, bodyMenuOpen := false,
        ariaExpanded := "false", ariaHidden := "true",
        focused := FocusTarget.other } :=
  toggle_twice_is_identity
    { isOpen := false, navActive := false, bodyMenuOpen := false,
      ariaExpanded := "false", ariaHidden := "true",
      focused := FocusTarget.other } (by decide)

/-- Timing model of `utils.debounce(func, wait)` (main.js lines 44-54)
driven by the times of the triggering events, given in increasing order.
Each event clears the pending timer (`clearTimeout(timeout)`) and arms a
new one for `wait` later (`setTimeout(later, wait)`), so the timer armed
at event time `t` fires at `t + wait` unless a later event arrives
strictly before `t + wait`. The result lists the times at which the
wrapped function actually runs. -/
def debounceFireTimes (wait : Nat) : List Nat → List Nat
  | [] => []
  | [t] => [t + wait]
  | t1 :: t2 :: rest =>
      (if t2 < t1 + wait then [] else [t1 + wait]) ++
        debounceFireTimes wait (t2 :: rest)

/-- Body of the debounced resize handler (main.js lines 148-152):
`if (!utils.isMobile() && this.isOpen) this.closeMenu()`. -/
def resizeEval (innerWidth : Nat) (s : NavState) : NavState :=
  if ¬isMobile innerWidth ∧ s.isOpen then closeMenu s else s

lemma debounceFireTimes_burst (wait t : Nat) (rest : List Nat)
    (h : List.Chain (fun a b => b < a + wait) t rest) :
    debounceFireTimes wait (t :: rest) =
      [(t :: rest).getLast (List.cons_ne_nil t rest) + wait] := by
  induction rest generalizing t with
  | nil => rfl
  | cons t2 rest ih =>
      cases h with
      | cons hlt hchain =>
          rw [debounceFireTimes, if_pos hlt, List.nil_append, ih t2 hchain]
          rw [List.getLast_cons (List.cons_ne_nil t2 rest)]

/-- C6: a burst of resize events (each arriving within the 150 ms
debounce window of its predecessor) followed by quiet produces exactly
one run of the wrapped resize evaluation — only the trailing event's
timer survives, firing 150 ms after it — and that evaluation changes
`isOpen` exactly when the menu is open and the viewport is no longer in
the mobile width class (width at least 768). -/
theorem debounced_resize_fires_once_at_trailing_event
    (t : Nat) (rest : List Nat) (s : NavState) (w : Nat)
    (hburst : List.Chain (fun a b => b < a + 150) t rest) :
    debounceFireTimes 150 (t :: rest) =
      [(t :: rest).getLast (List.cons_ne_nil t rest) + 150] ∧
    ((resizeEval w s).isOpen ≠ s.isOpen ↔ (s.isOpen = true ∧ 768 ≤ w)) := by
  refine ⟨debounceFireTimes_burst 150 t rest hburst, ?_⟩
  unfold resizeEval
  by_cases hw : isMobile w
  · have hw768 : ¬768 ≤ w := by
      simpa [isMobile, mobileBreakpoint, Nat.lt_iff_add_one_le] using hw
    simp [hw, hw768]
  · have hw768 : 768 ≤ w := by
      simpa [isMobile, mobileBreakpoint, Nat.not_lt] using hw
    by_cases ho : s.isOpen
    · simp [hw, ho, hw768, closeMenu]
    · simp [hw, ho]

/-- Closed instance of C6: three resize events at 0, 100, 200 ms with
gaps under 150 ms yield exactly one firing, at 350 ms, and a concrete
open state at width 1024 is evaluated as a close. -/
theorem debounced_resize_fires_once_at_trailing_event_witness :
    debounceFireTimes 150 (0 :: [100, 200]) =
      [(0 :: [100, 200]).getLast (List.cons_ne_nil 0 [100, 200]) + 150] ∧
    ((resizeEval 1024
        { isOpen := true, navActive := true, bodyMenuOpen := true,
          ariaExpanded := "true", ariaHidden := "false",
          focused := FocusTarget.other }).isOpen ≠
      ({ isOpen := true, navActive := true, bodyMenuOpen := true,
          ariaExpanded := "true", ariaHidden := "false",
          focused := FocusTarget.other } : NavState).isOpen ↔
      (({ isOpen := true, navActive := true, bodyMenuOpen := true,
          ariaExpanded := "true", ariaHidden := "false",
          focused := FocusTarget.other } : NavState).isOpen = true ∧
        768 ≤ 1024)) :=
  debounced_resize_fires_once_at_trailing_event 0 [100, 200]
    { isOpen := true, navActive := true, bodyMenuOpen := true,
      ariaExpanded := "true", ariaHidden := "false",
      focused := FocusTarget.other } 1024
    (by constructor <;> simp)

/-- The deferred focus transfer scheduled at the end of `openMenu`
(main.js lines 188-192). `linksAtSchedule` are the nav-link element ids
present when `openMenu` runs; the result is the callback handed to
`setTimeout`, when one is scheduled at all. The callback receives the
nav links present when it later runs and returns the element `focus()`
is called on, if any. Per the source, the guard `if (firstLink)` runs
before `setTimeout`, and the callback `() => firstLink.focus()` focuses
the element captured at scheduling time without consulting the DOM
again: it ignores its run-time argument. -/
def scheduleDeferredFocus (linksAtSchedule : List Nat) :
    Option (List Nat → Option Nat) :=
  match linksAtSchedule.head? with
  | some firstLink => some (fun _linksAtRun => some firstLink)
  | none => none

/-- Fire a scheduled deferred-focus callback against the nav links
present at run time; `none` when nothing was scheduled or the callback
focuses nothing. -/
def runDeferredFocus (scheduled : Option (List Nat → Option Nat))
    (linksAtRun : List Nat) : Option Nat :=
  match scheduled with
  | some cb => cb linksAtRun
  | none => none

/-- C7 fails on the code: scheduling over a DOM whose first nav link is
element 5, then running the deferred callback after every nav link has
been removed, still calls focus on element 5 — the callback does not
re-check existence at run time. -/
theorem deferred_focus_run_time_check_counterexample :
    runDeferredFocus (scheduleDeferredFocus [5]) [] = some 5 ∧
    (5 : Nat) ∉ ([] : List Nat) :=
  ⟨rfl, by simp⟩

/-- C7 amended: the existence check happens once, at scheduling time —
open() schedules the deferred focus callback exactly when a first
NavLink exists at that moment, and the scheduled callback
unconditionally focuses the element captured then, whatever the DOM
holds when it runs. -/
theorem deferred_focus_checks_at_schedule_time
    (links linksAtRun : List Nat) :
    (scheduleDeferredFocus links = none ↔ links = []) ∧
    (∀ first, links.head? = some first →
      runDeferredFocus (scheduleDeferredFocus links) linksAtRun = some first) := by
  cases links <;> simp [scheduleDeferredFocus, runDeferredFocus]

/-- Closed instance of the amended C7: with links [5] at scheduling time
and an empty DOM at run time, the callback still focuses element 5. -/
theorem deferred_focus_checks_at_schedule_time_witness :
    runDeferredFocus (scheduleDeferredFocus [5, 6]) [] = some 5 :=
  (deferred_focus_checks_at_schedule_time [5, 6] []).2 5 rfl

/-- One event-handler registration performed by the navigation module:
the element listened on and the event name. -/
structure HandlerBinding where
  element : String
  event : String
deriving DecidableEq, Repr

/-- The registrations `navigation.bindEvents()` performs (main.js lines
114-153): the toggle click handler, one click handler per nav link, the
document click and keydown handlers, and the debounced window resize
handler. -/
def bindEventsRegistrations (links : List Nat) : List HandlerBinding :=
  [⟨"toggle", "click"⟩] ++
    links.map (fun _ => ⟨"navLink", "click"⟩) ++
    [⟨"document", "click"⟩, ⟨"document", "keydown"⟩, ⟨"window", "resize"⟩]

/-- The attribute writes `navigation.setupAccessibility()` performs
(main.js lines 156-158): initial `aria-expanded` on the toggle and
`aria-hidden` on the container. -/
def setupAccessibilityWrites : List (String × String) :=
  [("aria-expanded", "false"), ("aria-hidden", "true")]

/-- The keydown registrations `navigation.setupAccessibility()` performs
(main.js lines 161-174): one per nav link. -/
def setupAccessibilityRegistrations (links : List Nat) : List HandlerBinding :=
  links.map (fun _ => ⟨"navLink", "keydown"⟩)

/-- Externally visible effect of `navigation.init()`: which handlers got
registered and which attributes got written. With no registered handler,
no operation of the controller is reachable afterwards. -/
structure InitEffect where
  registrations : List HandlerBinding
  attributeWrites : List (String × String)
deriving DecidableEq, Repr

/-- Operation `navigation.init()` (main.js lines 104-112): query the
toggle control and the menu container; if either query failed, return
before doing anything; otherwise run `bindEvents()` and
`setupAccessibility()`. -/
def navigationInit (toggle nav : Option Nat) (links : List Nat) : InitEffect :=
  match toggle, nav with
  | some _, some _ =>
      { registrations :=
          bindEventsRegistrations links ++ setupAccessibilityRegistrations links,
        attributeWrites := setupAccessibilityWrites }
  | _, _ => { registrations := [], attributeWrites := [] }

/-- C8: when the toggle control or the menu container is absent at
setup, init() registers no event handler and writes no attribute, so no
operation of the controller is reachable afterwards. -/
theorem init_is_noop_when_element_missing
    (toggle nav : Option Nat) (links : List Nat)
    (h : toggle = none ∨ nav = none) :
    navigationInit toggle nav links =
      { registrations := [], attributeWrites := [] } := by
  rcases h with h | h
  · subst h; cases nav <;> rfl
  · subst h; cases toggle <;> rfl

/-- Closed instance of C8: missing toggle control, present container,
two nav links. -/
theorem init_is_noop_when_element_missing_witness :
    navigationInit none (some 1) [2, 3] =
      { registrations := [], attributeWrites := [] } :=
  init_is_noop_when_element_missing none (some 1) [2, 3] (Or.inl rfl)

/-- Target of `links[index + 1] || links[0]` for the next/forward arrow
keys (main.js line 166): a JS array read out of range yields undefined,
which is falsy, so the fallback is the first link; DOM elements are
always truthy, so an in-range read wins. -/
def navNextTarget (links : List Nat) (index : Nat) : Option Nat :=
  (links.get? (index + 1)).or (links.get? 0)

/-- Target of `links[index - 1] || links[links.length - 1]` for the
previous/backward arrow keys (main.js line 170); at `index = 0` the JS
read is `links[-1]`, which is undefined, so the fallback is the last
link. -/
def navPrevTarget (links : List Nat) (index : Nat) : Option Nat :=
  (if index = 0 then none else links.get? (index - 1)).or
    (links.get? (links.length - 1))

/-- The per-NavLink keydown handler registered by `setupAccessibility`
(main.js lines 163-173): ArrowDown/ArrowRight focus the next target,
ArrowUp/ArrowLeft the previous one; nothing else of the state is
touched. -/
def navLinkKeydown (links : List Nat) (index : Nat) (key : String)
    (s : NavState) : NavState :=
  if key = "ArrowDown" ∨ key = "ArrowRight" then
    match navNextTarget links index with
    | some l => { s with focused := FocusTarget.navLink l }
    | none => s
  else if key = "ArrowUp" ∨ key = "ArrowLeft" then
    match navPrevTarget links index with
    | some l => { s with focused := FocusTarget.navLink l }
    | none => s
  else s

lemma navNextTarget_last (links : List Nat) (h : links ≠ []) :
    navNextTarget links (links.length - 1) = some (links.head h) := by
  unfold navNextTarget
  have h1 : links.length - 1 + 1 = links.length := by
    cases links with
    | nil => exact absurd rfl h
    | cons a l => simp
  rw [h1, List.get?_eq_none.mpr (le_refl _)]
  cases links with
  | nil => exact absurd rfl h
  | cons a l => rfl

lemma navPrevTarget_first (links : List Nat) (h : links ≠ []) :
    navPrevTarget links 0 = some (links.getLast h) := by
  unfold navPrevTarget
  rw [if_pos rfl, Option.none_or, List.getLast_eq_get]
  exact List.get?_eq_get (Nat.sub_lt (List.length_pos.mpr h) Nat.one_pos)

/-- C9: for a non-empty sequence of NavLinks, a next/forward key on the
last link moves focus to the first, a previous/backward key on the first
link moves focus to the last, and no directional-key handling changes
`isOpen` or any of its four mirrors. -/
theorem arrow_keys_wrap_and_preserve_menu_state
    (links : List Nat) (h : links ≠ []) (s : NavState) :
    ((navLinkKeydown links (links.length - 1) "ArrowDown" s).focused =
      FocusTarget.navLink (links.head h)) ∧
    ((navLinkKeydown links 0 "ArrowUp" s).focused =
      FocusTarget.navLink (links.getLast h)) ∧
    (∀ index key,
      (navLinkKeydown links index key s).isOpen = s.isOpen ∧
      (navLinkKeydown links index key s).navActive = s.navActive ∧
      (navLinkKeydown links index key s).bodyMenuOpen = s.bodyMenuOpen ∧
      (navLinkKeydown links index key s).ariaExpanded = s.ariaExpanded ∧
      (navLinkKeydown links index key s).ariaHidden = s.ariaHidden) := by
  refine ⟨?_, ?_, ?_⟩
  · rw [navLinkKeydown, if_pos (Or.inl rfl), navNextTarget_last links h]
  · rw [navLinkKeydown, if_neg (by simp), if_pos (Or.inl rfl),
      navPrevTarget_first links h]
  · intro index key
    unfold navLinkKeydown
    by_cases h1 : key = "ArrowDown" ∨ key = "ArrowRight"
    · rw [if_pos h1]
      cases navNextTarget links index <;> simp
    · rw [if_neg h1]
      by_cases h2 : key = "ArrowUp" ∨ key = "ArrowLeft"
      · rw [if_pos h2]
        cases navPrevTarget links index <;> simp
      · rw [if_neg h2]
        simp

/-- Closed instance of C9 on the links [10, 20, 30]: ArrowDown on the
last focuses 10, ArrowUp on the first focuses 30. -/
theorem arrow_keys_wrap_and_preserve_menu_state_witness :
    (navLinkKeydown [10, 20, 30] 2 "ArrowDown"
      { isOpen := true, navActive := true, bodyMenuOpen := true,
        ariaExpanded := "true", ariaHidden := "false",
        focused := FocusTarget.navLink 30 }).focused =
      FocusTarget.navLink 10 ∧
    (navLinkKeydown [10, 20, 30] 0 "ArrowUp"
      { isOpen := true, navActive := true, bodyMenuOpen := true,
        ariaExpanded := "true", ariaHidden := "false",
        focused := FocusTarget.navLink 10 }).focused =
      FocusTarget.navLink 30 := by
  have h1 := (arrow_keys_wrap_and_preserve_menu_state [10, 20, 30] (by simp)
    { isOpen := true, navActive := true, bodyMenuOpen := true,
      ariaExpanded := "true", ariaHidden := "false",
      focused := FocusTarget.navLink 30 }).1
  have h2 := (arrow_keys_wrap_and_preserve_menu_state [10, 20, 30] (by simp)
    { isOpen := true, navActive := true, bodyMenuOpen := true,
      ariaExpanded := "true", ariaHidden := "false",
      focused := FocusTarget.navLink 10 }).2.1
  exact ⟨h1, h2⟩

/-- An image element as `lazyLoad` sees it: the live `src` attribute,
the `data-src` attribute (`img.dataset.src`), and the class list. -/
structure ImgEl where
  src : Option String
  dataSrc : Option String
  classes : List String
deriving DecidableEq, Repr

/-- Effect of `el.classList.add(c)`: the token is appended only when
absent (`classList` is a set of tokens). -/
def classListAdd (c : String) (classes : List String) : List String :=
  if c ∈ classes then classes else classes ++ [c]

/-- Operation `lazyLoad.loadImage(img)` (main.js lines 238-245): read
`img.dataset.src`; when truthy (present and non-empty) copy it into
`img.src`, remove the `data-src` attribute, and add the `loaded` class;
otherwise do nothing. -/
def loadImage (img : ImgEl) : ImgEl :=
  match img.dataSrc with
  | some src =>
      if src ≠ "" then
        { src := some src, dataSrc := none,
          classes := classListAdd "loaded" img.classes }
      else img
  | none => img

/-- C10: loadImage changes nothing on an image without `data-src`, and
is idempotent: a successful call removes `data-src`, so a second call on
the same element changes nothing further. -/
theorem loadImage_idempotent (img : ImgEl) :
    (img.dataSrc = none → loadImage img = img) ∧
    loadImage (loadImage img) = loadImage img := by
  constructor
  · intro h
    unfold loadImage
    rw [h]
  · cases hd : img.dataSrc with
    | none =>
        have h1 : loadImage img = img := by rw [loadImage, hd]
        rw [h1]
        exact h1
    | some src =>
        by_cases hs : src = ""
        · have h1 : loadImage img = img := by
            rw [loadImage, hd]
            simp [hs]
          rw [h1]
          exact h1
        · have h1 : loadImage img =
              { src := some src, dataSrc := none,
                classes := classListAdd "loaded" img.classes } := by
            rw [loadImage, hd]
            simp [hs]
          rw [h1]
          rfl

/-- Closed instance of C10: an image with no `data-src` is untouched,
and loading twice equals loading once on an image carrying
`data-src="b.png"`. -/
theorem loadImage_idempotent_witness :
    (loadImage { src := some "a.png", dataSrc := none, classes := [] } =
      { src := some "a.png", dataSrc := none, classes := [] }) ∧
    loadImage (loadImage
        { src := none, dataSrc := some "b.png", classes := [] }) =
      loadImage { src := none, dataSrc := some "b.png", classes := [] } :=
  ⟨(loadImage_idempotent
      { src := some "a.png", dataSrc := none, classes := [] }).1 rfl,
    (loadImage_idempotent
      { src := none, dataSrc := some "b.png", classes := [] }).2⟩

end LMF
